import Mathlib

/-!
Verification of the inkmap map-printing pipeline.

This development shallowly embeds the parts of the source that the
verified properties are about:

* the scale-bar annotator (functions `printScaleBar` and
  `getScaleBarParams` of the scalebar module),
* the WFS GetFeature URL builder (`generateGetFeatureUrl`) and the
  frame-state helper (`setFrameState`) from the printer utilities,
* the per-layer render tasks of `printer/layers.js` (`createLayer` ,
  `createTiledLayer` , `createLayerWMS` , `createLayerWMTS` ,
  `createLayerWFS`),
* the worker-side `Image` polyfill of `worker/polyfills.js`.

JavaScript numbers are idealised as exact rationals (ℚ); machine floats
are not modelled.  The JS `while (true)` search loop of the scale bar is
embedded with an explicit fuel parameter; exhausted fuel returns `none`
(standing in for non-termination, which the source only exhibits for
non-positive point resolutions, where the source instead produces `NaN`
widths and returns `undefined`).  Canvas surfaces are modelled as a
boolean (`true` = the rendered canvas, `false` = `null`), since the
claims only distinguish a present surface from a null one.
-/

namespace Inkmap

/-! ## Scale-bar annotator (scalebar module) -/

/-- Record returned by `getScaleBarParams`: pixel width, distance value
and unit suffix. -/
structure ScaleBarParams where
  width : ℤ
  scalenumber : ℚ
  suffix : String
deriving DecidableEq

/-- Constant `LEADING_DIGITS` of `getScaleBarParams` (line 25). -/
def LEADING_DIGITS : List ℚ := [1, 2, 5]

/-- Embeds the unit-selection if/else ladder of `getScaleBarParams`
(scalebar module, lines 40-95): starting from
`nominalCount = minWidth * pointResolution` with `minWidth = 64`, it
picks the unit suffix and rescales the point resolution.  The OpenLayers
constant `METERS_PER_UNIT[degrees]` is a parameter `metersPerDegree`.
The last component records whether the final `else` branch logged
`console.error('Invalid units: ...')`; note that this branch does not
return: the source continues with the unadjusted point resolution and
the initial empty suffix. -/
def scaleBarAdjust (units : String) (pointResolution metersPerDegree : ℚ) :
    String × ℚ × Bool :=
  let nominalCount : ℚ := 64 * pointResolution
  if units = "degrees" then
    let nominalCount := nominalCount * metersPerDegree
    if nominalCount < metersPerDegree / 60 then ("″", pointResolution * 3600, false)
    else if nominalCount < metersPerDegree then ("′", pointResolution * 60, false)
    else ("°", pointResolution, false)
  else if units = "imperial" then
    if nominalCount < 0.9144 then ("in", pointResolution / 0.0254, false)
    else if nominalCount < 1609.344 then ("ft", pointResolution / 0.3048, false)
    else ("mi", pointResolution / 1609.344, false)
  else if units = "nautical" then
    ("nm", pointResolution / 1852, false)
  else if units = "metric" then
    if nominalCount < 0.001 then ("μm", pointResolution * 1000000, false)
    else if nominalCount < 1 then ("mm", pointResolution * 1000, false)
    else if nominalCount < 1000 then ("m", pointResolution, false)
    else ("km", pointResolution / 1000, false)
  else if units = "us" then
    if nominalCount < 0.9144 then ("in", pointResolution * 39.37, false)
    else if nominalCount < 1609.344 then ("ft", pointResolution / 0.30480061, false)
    else ("mi", pointResolution / 1609.3472, false)
  else
    ("", pointResolution, true)

/-- Embeds the `while (true)` search loop of `getScaleBarParams` (lines
99-110): `decimalCount = Math.floor(i / 3)` is `Int.fdiv i 3`,
`LEADING_DIGITS[((i % 3) + 3) % 3]` indexes at the canonical residue of
`i` mod 3 (which is exactly `Int.emod i 3`), and
`width = Math.round(count / pointResolution)` rounds half-up, which is
Mathlib's `round`.  The source breaks when `width >= minWidth` with
`minWidth = 64`, otherwise increments `i`; `fuel` bounds the number of
iterations, with `none` on exhaustion. -/
def scaleBarLoop (pointResolution : ℚ) (suffix : String) :
    ℕ → ℤ → Option ScaleBarParams
  | 0, _ => none
  | fuel + 1, i =>
    let decimalCount := Int.fdiv i 3
    let decimal : ℚ := (10 : ℚ) ^ decimalCount
    let count : ℚ := LEADING_DIGITS.getD (Int.emod i 3).toNat 0 * decimal
    let width := round (count / pointResolution)
    if 64 ≤ width then some ⟨width, count, suffix⟩
    else scaleBarLoop pointResolution suffix fuel (i + 1)

/-- Embeds `getScaleBarParams` (scalebar module, lines 22-116) with the
point resolution already computed (the call to the external
`ol/proj.getPointResolution` is outside the embedding): the unit ladder
runs first, then the search starts from
`i = 3 * Math.floor(Math.log(minWidth * pointResolution) / Math.log 10)`;
for a positive adjusted point resolution that floor is `Int.log 10`.
Returns the params (when the loop exits) together with the flag
recording whether the invalid-units configuration error was logged. -/
def getScaleBarParams (units : String) (pointResolution metersPerDegree : ℚ)
    (fuel : ℕ) : Option ScaleBarParams × Bool :=
  match scaleBarAdjust units pointResolution metersPerDegree with
  | (suffix, pr, errored) =>
    (scaleBarLoop pr suffix fuel (3 * Int.log 10 (64 * pr)), errored)

/-- Embeds the units defaulting of `getScaleBarParams` (line 30):
`spec.scaleBar.units ? spec.scaleBar.units : 'metric'` — a missing or
empty (falsy) units string selects `"metric"`. -/
def effectiveScaleBarUnits : Option String → String
  | none => "metric"
  | some s => if s = "" then "metric" else s

/-- Embeds `printScaleBar` (scalebar module, lines 11-14): it computes
the params and unconditionally hands them to `renderScaleBar`, which
draws the bar and its label whenever it receives a params object.  This
records whether a graphical scale bar is drawn for the given
configuration. -/
def printScaleBarDraws (units : String) (pointResolution metersPerDegree : ℚ)
    (fuel : ℕ) : Bool :=
  (getScaleBarParams units pointResolution metersPerDegree fuel).1.isSome

/-! ## WFS GetFeature URL builder (printer utilities) -/

/-- URL as relevant to `generateGetFeatureUrl`: the raw base-URL string
together with the search-parameter list (key/value pairs in order) that
the external `URL` object carries after parsing it.  The parsing itself
is the external `URL` constructor and is not modelled; a base URL is
given directly with its parsed parameters. -/
structure UrlModel where
  raw : String
  params : List (String × String)
deriving DecidableEq

/-- Embeds `URLSearchParams.set`: replaces the value of the first
parameter with the given key, deletes any further parameters with that
key, and appends the pair when the key is absent. -/
def setParam : List (String × String) → String → String → List (String × String)
  | [], k, v => [(k, v)]
  | p :: ps, k, v =>
    if p.1 = k then (k, v) :: ps.filter (fun q => !(q.1 == k))
    else p :: setParam ps k v

/-- Embeds `URLSearchParams.get`: the value of the first parameter with
the given key. -/
def getParam (ps : List (String × String)) (k : String) : Option String :=
  (ps.find? (fun p => p.1 == k)).map (fun p => p.2)

/-- Embeds the guard `baseUrl.substring(0, 4) !== 'http'` of
`generateGetFeatureUrl` (line 251). -/
def isHttp (s : String) : Bool := s.take 4 == "http"

/-- Embeds `generateGetFeatureUrl` (printer utilities, lines 243-266):
non-HTTP base URLs pass through unchanged; otherwise the query
parameters are set in source order, with the layer name under
`typenames` when `wfsVersion === '2.0.0'` (strict string equality in the
source) and under `typename` otherwise, and `outputFormat` set only for
the `geojson` format.  The extent entries are taken as
already-stringified coordinates, so `${extent.join(',')},${projCode}`
is their comma-join followed by the projection code. -/
def generateGetFeatureUrl (base : UrlModel)
    (wfsVersion layerName format projCode : String)
    (extent : List String) : UrlModel :=
  if isHttp base.raw then
    let typeNameLabel := if wfsVersion = "2.0.0" then "typenames" else "typename"
    let ps := setParam base.params "SERVICE" "WFS"
    let ps := setParam ps "version" wfsVersion
    let ps := setParam ps "request" "GetFeature"
    let ps := setParam ps typeNameLabel layerName
    let ps := setParam ps "srsName" projCode
    let ps := setParam ps "bbox" (String.intercalate "," extent ++ "," ++ projCode)
    let ps := if format = "geojson" then setParam ps "outputFormat" "application/json" else ps
    { base with params := ps }
  else base

/-- Embeds `const version = layerSpec.version || '1.1.0'` of
`createLayerWFS` (layers.js line 255): a missing or empty (falsy)
version string defaults to `1.1.0`. -/
def wfsEffectiveVersion : Option String → String
  | none => "1.1.0"
  | some s => if s = "" then "1.1.0" else s

/-! ## Layer specifications and frame states (printer/layers.js and utilities) -/

/-- Flattened layer specification record: the union of the fields the
embedded code reads from the `Layer` variants (`WmsLayer` , `XyzLayer` ,
`WmtsLayer` , `WfsLayer` of the public typedefs).  Fields a JS spec may
omit are `Option`. -/
structure LayerSpec where
  type : String
  url : String
  layer : String
  opacity : Option ℚ
  tiled : Bool
  version : Option String
  format : Option String
  projection : String
deriving DecidableEq

/-- Single entry of `layerStatesArray` as built by `setFrameState`
(printer utilities, lines 198-216). -/
structure LayerState where
  managed : Bool
  maxResolution : Option ℚ
  maxZoom : Option ℤ
  minResolution : ℚ
  minZoom : Option ℤ
  opacity : ℚ
  sourceState : String
  visible : Bool
  zIndex : ℤ
deriving DecidableEq

/-- Frame state restricted to the fields the embedded code manipulates:
the output size and the per-layer state array.  The remaining view
fields live in the external OpenLayers renderer. -/
structure FrameState where
  size : List ℕ
  layerStatesArray : List LayerState
deriving DecidableEq

/-- Embeds `setFrameState` (printer utilities, lines 198-216): spreads
the root frame state and installs a single layer state whose opacity is
`opacity !== undefined ? opacity : 1`.  The `layer` object reference is
external and not part of the data model. -/
def setFrameState (root : FrameState) (opacity : Option ℚ) : FrameState :=
  { root with
    layerStatesArray := [{
      managed := true
      maxResolution := none
      maxZoom := none
      minResolution := 0
      minZoom := none
      opacity := opacity.getD 1
      sourceState := "ready"
      visible := true
      zIndex := 0 }] }

/-- Frame state built by `createTiledLayer` (layers.js line 90):
`setFrameState(rootFrameState, layer, opacity)` with the opacity the
caller passed. -/
def createTiledLayerFrame (root : FrameState) (opacity : Option ℚ) : FrameState :=
  setFrameState root opacity

/-- Frame state of an XYZ layer task (layers.js lines 135-145):
`createTiledLayer(..., layerSpec.opacity)`. -/
def createLayerXYZFrame (root : FrameState) (spec : LayerSpec) : FrameState :=
  createTiledLayerFrame root spec.opacity

/-- Frame state of a WMS layer task (layers.js lines 152-191): the tiled
branch passes `layerSpec.opacity` to `createTiledLayer`, the
single-image branch calls `setFrameState(rootFrameState, layer,
layerSpec.opacity)`. -/
def createLayerWMSFrame (root : FrameState) (spec : LayerSpec) : FrameState :=
  if spec.tiled then createTiledLayerFrame root spec.opacity
  else setFrameState root spec.opacity

/-- Frame state of a WMTS layer task (layers.js lines 230-240):
`createTiledLayer(..., layerSpec.opacity)`. -/
def createLayerWMTSFrame (root : FrameState) (spec : LayerSpec) : FrameState :=
  createTiledLayerFrame root spec.opacity

/-- Frame state of a WFS layer task (layers.js line 304):
`setFrameState(rootFrameState, layer)` — no opacity argument is passed,
so the layer state opacity defaults. -/
def createLayerWFSFrame (root : FrameState) (_spec : LayerSpec) : FrameState :=
  setFrameState root none

/-! ## Layer task dispatch (createLayer) -/

/-- Tag of the render task each `createLayer` arm constructs. -/
inductive LayerTask where
  | xyz
  | wms
  | wmts
  | wfs
deriving DecidableEq

/-- Embeds `createLayer` (layers.js lines 36-47): the switch on
`layerSpec.type` has no default arm, so an unknown type produces no
observable (JS `undefined`); the function itself neither logs nor
reports anything. -/
def createLayer (spec : LayerSpec) : Option LayerTask :=
  match spec.type with
  | "XYZ" => some .xyz
  | "WMS" => some .wms
  | "WMTS" => some .wmts
  | "WFS" => some .wfs
  | _ => none

/-- Result of dispatching a print job: the configuration errors reported
before rendering starts, and the layer tasks started. -/
structure DispatchResult where
  configErrors : List String
  tasks : List LayerTask
deriving DecidableEq

/-- Modelled from the spec: the Job Dispatcher (spec §4.1) is not under
`src/` — only `createLayer` and the public API surface are.  Per the
spec it starts one layer render task per entry of `spec.layers`, and an
unknown layer `type` "is a configuration error surfaced before any
rendering begins".  The dispatcher therefore records, before rendering,
one configuration error (the offending type) per layer for which
`createLayer` (embedded from the source) yields no task; the started
tasks are the successfully created ones. -/
def dispatchJob (layers : List LayerSpec) : DispatchResult :=
  { configErrors := (layers.filter (fun l => (createLayer l).isNone)).map (fun l => l.type)
    tasks := layers.filterMap createLayer }

/-! ## WMTS tile grid construction -/

/-- Tile grid as supplied in a WMTS layer spec (public `TileGrid`
typedef): resolutions, optional extent, optional matrix ids. -/
structure TileGridSpec where
  resolutions : List ℚ
  extent : Option (List ℚ)
  matrixIds : Option (List ℕ)
deriving DecidableEq

/-- Tile grid actually handed to the OpenLayers `WMTSTileGrid`
constructor. -/
structure WMTSTileGrid where
  resolutions : List ℚ
  extent : List ℚ
  matrixIds : List ℕ
deriving DecidableEq

/-- Embeds the tile-grid computation of `createLayerWMTS` (layers.js
lines 218-228): `extent = extent || extentFromProjection(projection)`
and `matrixIds = matrixIds || [...Array(resolutions.length).keys()]`.
The external `ol/tilegrid.extentFromProjection` (the projection's full
extent) is a parameter; `[...Array(n).keys()]` is `List.range n`. -/
def wmtsEffectiveTileGrid (extentFromProjection : String → List ℚ)
    (projection : String) (tg : TileGridSpec) : WMTSTileGrid :=
  { resolutions := tg.resolutions
    extent := tg.extent.getD (extentFromProjection projection)
    matrixIds := tg.matrixIds.getD (List.range tg.resolutions.length) }

/-! ## Tiled layer task stream (createTiledLayer) -/

/-- Per-layer tile queue as `createTiledLayer` observes it through the
external OpenLayers `frameState.tileQueue` (the Tile Loading
Coordinator, spec §4.3): `queued` is
`Object.keys(queuedElements_).length`, `loading` is `getTilesLoading()`. -/
structure TileQueue where
  queued : ℕ
  loading : ℕ
deriving DecidableEq

/-- Modelled from the spec: the Tile Loading Coordinator (spec §4.3) is
external to `src/`.  `loadMoreTiles(maxNewLoads, maxTotalLoading)`
"admits at most `maxNewRequests` new loads while respecting the
concurrency ceiling": it starts queued tiles until the queue empties,
`maxNewLoads` tiles were started, or `maxTotalLoading` tiles are in
flight. -/
def loadMoreTiles (q : TileQueue) (maxNewLoads maxTotalLoading : ℕ) : TileQueue :=
  let n := min (min maxNewLoads (maxTotalLoading - q.loading)) q.queued
  { queued := q.queued - n, loading := q.loading + n }

/-- Events driving a tiled layer task: a 500ms interval tick
(`reprioritize()` then `loadMoreTiles(12, 4)` , layers.js lines
101-102), and the settling of one in-flight tile (success, or failure
firing the `tileloaderror` handler of lines 86-88). -/
inductive TileEvent where
  | tick
  | success
  | failure
deriving DecidableEq

/-- State of a tiled layer task: the tile queue plus the
`tileLoadErrorUrl` variable of `createTiledLayer` (line 63). -/
structure TiledState where
  queue : TileQueue
  tileLoadErrorUrl : Option String
deriving DecidableEq

/-- One step of a tiled layer task.  `sourceUrl` is
`e.target.getUrls()[0]` — the layer source's URL, which the
`tileloaderror` handler records (layers.js line 87); a settling tile
leaves the queued count unchanged and decrements the in-flight count. -/
def tiledStep (sourceUrl : String) (s : TiledState) : TileEvent → TiledState
  | .tick => { s with queue := loadMoreTiles s.queue 12 4 }
  | .success => { s with queue := ⟨s.queue.queued, s.queue.loading - 1⟩ }
  | .failure =>
    { queue := ⟨s.queue.queued, s.queue.loading - 1⟩
      tileLoadErrorUrl := some sourceUrl }

/-- Runs a tiled layer task over a sequence of events. -/
def runTiled (sourceUrl : String) (init : TiledState) (events : List TileEvent) :
    TiledState :=
  events.foldl (tiledStep sourceUrl) init

/-- State right after the initial `renderFrame` call populated the tile
queue with the layer's `tileCount` tiles (layers.js lines 95-96). -/
def tiledInit (tileCount : ℕ) : TiledState := ⟨⟨tileCount, 0⟩, none⟩

/-- Embeds the `takeWhile` predicate of the tiled stream (layers.js
lines 100-104): after advancing the queue the stream continues while
`getTilesLoading()` is truthy (nonzero); the first falsy tick is still
emitted (`takeWhile(..., true)` — inclusive). -/
def tiledContinue (s : TiledState) : Bool := s.queue.loading != 0

/-- Embeds the `map` stage of the tiled stream (layers.js lines
105-125): `progress = 1 - loadedTilesCount / tileCount` where
`loadedTilesCount` is the now-queued count; when that equals 1 while
tiles are still loading, 0.001 is subtracted; at progress exactly 1 a
final render happens and the canvas is emitted, otherwise the canvas
slot is `null` (here `false`).  The third slot is the recorded
`tileLoadErrorUrl`. -/
def tiledEmit (tileCount : ℕ) (s : TiledState) : ℚ × Bool × Option String :=
  let progress : ℚ := 1 - (s.queue.queued : ℚ) / (tileCount : ℚ)
  let progress := if progress = 1 ∧ 0 < s.queue.loading then progress - 0.001 else progress
  if progress = 1 then (1, true, s.tileLoadErrorUrl)
  else (progress, false, s.tileLoadErrorUrl)

/-! ## Single-image WMS and WFS task streams -/

/-- How the single image request of a non-tiled WMS layer settles.  On
`imageloaderror` the handler records `e.target.getUrl()` — the source's
configured URL. -/
inductive ImageOutcome where
  | loaded
  | failed (url : String)
deriving DecidableEq

/-- Embeds the emission sequence of a single-image WMS task
(`createLayerWMS` , layers.js lines 166-210): the `BehaviorSubject`
starts at `[0, null, undefined]`; on `imageloaderror` it emits
`[1, canvas, url]` and completes; on `imageloadend` it renders and emits
`[1, canvas, undefined]` and completes. -/
def createLayerWMSEmissions : ImageOutcome → List (ℚ × Bool × Option String)
  | .loaded => [(0, false, none), (1, true, none)]
  | .failed url => [(0, false, none), (1, true, some url)]

/-- How the WFS feature fetch settles: `xhr.onload` with an HTTP status,
or `xhr.onerror`. -/
inductive FetchOutcome where
  | load (status : ℕ)
  | networkError
deriving DecidableEq

/-- Embeds the emission sequence of a WFS vector task (`createLayerWFS` ,
layers.js lines 248-311): the `BehaviorSubject` starts at `[0, null]`
(no third slot, i.e. `undefined`); the loader's `onError` — xhr error or
a non-200 status — emits `[1, canvas, layerSpec.url]` and completes; a
200 response parses the features, renders, emits `[1, canvas]` and
completes. -/
def createLayerWFSEmissions (layerUrl : String) :
    FetchOutcome → List (ℚ × Bool × Option String)
  | .load status =>
    if status = 200 then [(0, false, none), (1, true, none)]
    else [(0, false, none), (1, true, some layerUrl)]
  | .networkError => [(0, false, none), (1, true, some layerUrl)]

/-! ## Worker-side Image polyfill (worker/polyfills.js) -/

/-- Outcome of the `fetch` started by the polyfill's `src` setter. -/
inductive WorkerFetchOutcome where
  | success
  | failure
deriving DecidableEq

/-- Embeds whether the `src` setter's promise chain
`fetch(url).then(r => r.blob()).then(blob => ... loadPromiseResolver())`
(polyfills.js lines 30-40) ever resolves the internal load promise: the
chain has no rejection handler, so a failed fetch leaves the promise
pending forever and the resolver is never invoked. -/
def imageLoadSettles : WorkerFetchOutcome → Bool
  | .success => true
  | .failure => false

/-- Embeds `Image.addEventListener` (polyfills.js lines 46-50): only the
`'load'` event name attaches the callback (to the load promise); every
other event name is ignored.  Callbacks are abstract ids. -/
def imageAddEventListener (listeners : List (String × ℕ)) (eventName : String)
    (cb : ℕ) : List (String × ℕ) :=
  if eventName = "load" then listeners ++ [(eventName, cb)] else listeners

/-- Callbacks the polyfill ever invokes for a registration list and a
fetch outcome: the callbacks attached to the load promise run when it
resolves; nothing else ever runs (the polyfill has no error event). -/
def imageInvokedCallbacks (listeners : List (String × ℕ))
    (outcome : WorkerFetchOutcome) : List ℕ :=
  if imageLoadSettles outcome then
    (listeners.filter (fun l => l.1 == "load")).map (fun l => l.2)
  else []

/-! ## Arithmetic helpers -/

/-- Helper: the base-10 logarithm of 64 floors to 1. -/
theorem nat_log10_64 : Nat.log 10 64 = 1 :=
  Nat.log_eq_of_pow_le_of_lt_pow (by norm_num) (by norm_num)

/-- Helper: `Math.floor(log10 64) = 1` over ℚ. -/
theorem int_log10_64 : Int.log 10 (64 : ℚ) = 1 := by
  rw [Int.log_of_one_le_right _ (by norm_num)]
  have h1 : ⌊(64 : ℚ)⌋₊ = 64 := by norm_num
  rw [h1, nat_log10_64]
  rfl

/-- Helper: any value `d * 10 ^ n` with `1 ≤ d ≤ 5` that reaches `127/2`
is at least `100`. -/
theorem leading_digit_lower (d : ℚ) (n : ℤ) (hd1 : 1 ≤ d) (hd5 : d ≤ 5)
    (h : (127 : ℚ) / 2 ≤ d * (10 : ℚ) ^ n) : (100 : ℚ) ≤ d * (10 : ℚ) ^ n := by
  rcases le_or_lt n 1 with hn | hn
  · exfalso
    have h10 : (10 : ℚ) ^ n ≤ (10 : ℚ) ^ (1 : ℤ) :=
      zpow_le_zpow_right₀ (by norm_num) hn
    have hpos : (0 : ℚ) < (10 : ℚ) ^ n := by positivity
    have h50 : ((10 : ℚ) ^ (1 : ℤ)) = 10 := by norm_num
    nlinarith
  · have h2 : (2 : ℤ) ≤ n := by omega
    have h10 : (10 : ℚ) ^ (2 : ℤ) ≤ (10 : ℚ) ^ n :=
      zpow_le_zpow_right₀ (by norm_num) h2
    have h100 : (100 : ℚ) ≤ (10 : ℚ) ^ n := by
      calc (100 : ℚ) = (10 : ℚ) ^ (2 : ℤ) := by norm_num
        _ ≤ _ := h10
    nlinarith

/-- Helper: a `some` result of the search loop carries the suffix the
loop was started with (the loop never changes it). -/
theorem scaleBarLoop_suffix (pointResolution : ℚ) (s : String) :
    ∀ (fuel : ℕ) (i : ℤ) (p : ScaleBarParams),
      scaleBarLoop pointResolution s fuel i = some p → p.suffix = s := by
  intro fuel
  induction fuel with
  | zero => intro i p h; simp [scaleBarLoop] at h
  | succ n ih =>
    intro i p h
    simp only [scaleBarLoop] at h
    split at h
    · injection h with h
      subst h
      rfl
    · exact ih _ _ h

/-! ## C1: scale bar at metric units and point resolution 1 -/

/-- **C1**: for minimum width 64 px, metric units, and a point
resolution of 1 ground-unit per pixel, `getScaleBarParams` returns
`scalenumber = 100`, `width = 100`, `suffix = "m"`, and `100` is the
smallest value of the form `{1,2,5} × 10 ^ n` whose rounded pixel width
(`value / pointResolution`) is at least 64. -/
theorem getScaleBarParams_metric_res1 (metersPerDegree : ℚ) :
    getScaleBarParams "metric" 1 metersPerDegree 9 = (some ⟨100, 100, "m"⟩, false) ∧
    ∀ (d : ℚ) (n : ℤ), d ∈ LEADING_DIGITS →
      (64 : ℤ) ≤ round (d * (10 : ℚ) ^ n / 1) → (100 : ℚ) ≤ d * (10 : ℚ) ^ n := by
  constructor
  · simp [getScaleBarParams, scaleBarAdjust, scaleBarLoop, LEADING_DIGITS,
      nat_log10_64, round_eq, List.getD]
    norm_num [nat_log10_64, round_eq]
    simp
    norm_num [round_eq]
  · intro d n hd hr
    rw [div_one, round_eq, Int.le_floor] at hr
    push_cast at hr
    have h1 : (127 : ℚ) / 2 ≤ d * (10 : ℚ) ^ n := by linarith
    have hd' : d = 1 ∨ d = 2 ∨ d = 5 := by simpa [LEADING_DIGITS] using hd
    rcases hd' with rfl | rfl | rfl
    · exact leading_digit_lower 1 n (by norm_num) (by norm_num) h1
    · exact leading_digit_lower 2 n (by norm_num) (by norm_num) h1
    · exact leading_digit_lower 5 n (by norm_num) (by norm_num) h1

/-- Witness for C1: instantiated at a concrete `metersPerDegree` and at
`d = 1`, `n = 2` (whose rounded width 100 is at least 64). -/
theorem getScaleBarParams_metric_res1_witness :
    getScaleBarParams "metric" 1 111195 9 = (some ⟨100, 100, "m"⟩, false) ∧
    (100 : ℚ) ≤ 1 * (10 : ℚ) ^ (2 : ℤ) :=
  ⟨(getScaleBarParams_metric_res1 111195).1,
    (getScaleBarParams_metric_res1 111195).2 1 2 (by decide)
      (by norm_num [round_eq])⟩

/-! ## C6: unknown scale-bar units -/

/-- **C6** (amended): for a units value that is none of the known five,
`getScaleBarParams` logs the invalid-units configuration error but the
scale bar is not omitted: the search still runs, with the unadjusted
(meters-based) point resolution and an empty suffix, and whenever it
produces params, `printScaleBar` still draws the bar. -/
theorem scalebar_unknown_units (units : String) (pr mpd : ℚ) (fuel : ℕ)
    (h : units ∉ ["degrees", "imperial", "nautical", "metric", "us"]) :
    (getScaleBarParams units pr mpd fuel).2 = true ∧
    (getScaleBarParams units pr mpd fuel).1 =
      scaleBarLoop pr "" fuel (3 * Int.log 10 (64 * pr)) ∧
    ∀ p, (getScaleBarParams units pr mpd fuel).1 = some p →
      p.suffix = "" ∧ printScaleBarDraws units pr mpd fuel = true := by
  have hadj : scaleBarAdjust units pr mpd = ("", pr, true) := by
    simp only [List.mem_cons, List.not_mem_nil, or_false, not_or] at h
    obtain ⟨h1, h2, h3, h4, h5⟩ := h
    simp [scaleBarAdjust, h1, h2, h3, h4, h5]
  refine ⟨?_, ?_, ?_⟩
  · simp [getScaleBarParams, hadj]
  · simp [getScaleBarParams, hadj]
  · intro p hp
    refine ⟨?_, ?_⟩
    · have hloop : scaleBarLoop pr "" fuel (3 * Int.log 10 (64 * pr)) = some p := by
        rw [getScaleBarParams, hadj] at hp
        exact hp
      exact scaleBarLoop_suffix pr "" fuel _ p hloop
    · simp [printScaleBarDraws, hp]

/-- Witness for C6's amended statement at units `"feet"` and point
resolution 1: the error is logged and the drawn bar's params carry an
empty suffix. -/
theorem scalebar_unknown_units_witness :
    (getScaleBarParams "feet" 1 111195 9).2 = true ∧
    printScaleBarDraws "feet" 1 111195 9 = true := by
  have hp : (getScaleBarParams "feet" 1 111195 9).1 = some ⟨100, 100, ""⟩ := by
    have hb := (scalebar_unknown_units "feet" 1 111195 9 (by decide)).2.1
    rw [hb]
    simp [scaleBarLoop, LEADING_DIGITS, nat_log10_64, round_eq, List.getD, int_log10_64]
    norm_num [round_eq]
    simp
    norm_num [round_eq]
  exact ⟨(scalebar_unknown_units "feet" 1 111195 9 (by decide)).1,
    ((scalebar_unknown_units "feet" 1 111195 9 (by decide)).2.2 ⟨100, 100, ""⟩ hp).2⟩

/-- Counterexample for C6 as stated: at units `"feet"` (not a known
unit) and point resolution 1, the scale-bar pass logs the configuration
error yet does not omit the scale bar — `getScaleBarParams` produces
params (with an empty suffix) and `printScaleBar` draws the bar with
them. -/
theorem scalebar_unknown_units_counterexample :
    getScaleBarParams "feet" 1 111195 9 = (some ⟨100, 100, ""⟩, true) ∧
    printScaleBarDraws "feet" 1 111195 9 = true := by
  have h : getScaleBarParams "feet" 1 111195 9 = (some ⟨100, 100, ""⟩, true) := by
    simp [getScaleBarParams, scaleBarAdjust, scaleBarLoop, LEADING_DIGITS,
      nat_log10_64, round_eq, List.getD, int_log10_64]
    norm_num [round_eq]
    simp
    norm_num [round_eq]
  exact ⟨h, by simp [printScaleBarDraws, h]⟩

/-! ## URL search-parameter lemmas -/

/-- Helper: dropping all pairs with key `k` does not change the first
pair found for a different key `k'`. -/
theorem find?_filter_key_ne (ps : List (String × String)) (k k' : String)
    (h : k' ≠ k) :
    ((ps.filter (fun q => !(q.1 == k))).find? (fun p => p.1 == k')) =
      ps.find? (fun p => p.1 == k') := by
  induction ps with
  | nil => rfl
  | cons q qs ih =>
    by_cases hq : q.1 = k
    · have h1 : (!(q.1 == k)) = false := by simp [hq]
      have h2 : (q.1 == k') = false := by
        rw [hq]
        exact beq_eq_false_iff_ne.mpr (Ne.symm h)
      simp [List.filter_cons, h1, List.find?_cons, h2, ih]
    · have h1 : (!(q.1 == k)) = true := by simp [hq]
      by_cases hq' : q.1 = k'
      · simp [List.filter_cons, h1, List.find?_cons, hq', h]
      · have h2 : (q.1 == k') = false := beq_eq_false_iff_ne.mpr hq'
        simp [List.filter_cons, h1, List.find?_cons, h2, ih]

/-- Helper: after `set(k, v)` the parameter `k` reads back as `v`. -/
theorem getParam_setParam_same (ps : List (String × String)) (k v : String) :
    getParam (setParam ps k v) k = some v := by
  induction ps with
  | nil => simp [setParam, getParam]
  | cons p ps ih =>
    by_cases h : p.1 = k
    · simp [setParam, getParam, h]
    · have h2 : (p.1 == k) = false := beq_eq_false_iff_ne.mpr h
      simpa [setParam, getParam, h, List.find?_cons, h2] using ih

/-- Helper: after `set(k, v)` any parameter with a different key reads
back unchanged. -/
theorem getParam_setParam_other (ps : List (String × String)) (k v k' : String)
    (h : k' ≠ k) : getParam (setParam ps k v) k' = getParam ps k' := by
  have hkk' : (k == k') = false := beq_eq_false_iff_ne.mpr (Ne.symm h)
  induction ps with
  | nil => simp [setParam, getParam, List.find?_cons, hkk']
  | cons p ps ih =>
    by_cases hp : p.1 = k
    · have h2 : (p.1 == k') = false := by
        rw [hp]
        exact hkk'
      simp [setParam, getParam, hp, List.find?_cons, hkk', h2,
        find?_filter_key_ne ps k k' h]
    · by_cases hp' : p.1 = k'
      · simp [setParam, getParam, hp, hp', List.find?_cons, h]
      · have h2 : (p.1 == k') = false := beq_eq_false_iff_ne.mpr hp'
        simpa [setParam, getParam, hp, List.find?_cons, h2] using ih

/-! ## C4: WFS GetFeature URL parameters -/

/-- Helper: the query parameters `generateGetFeatureUrl` produces for an
HTTP base URL, shared by the C4 and C9 results. -/
theorem getFeatureUrl_params_lemma (base : UrlModel)
    (wfsVersion layerName format projCode : String) (extent : List String)
    (hhttp : isHttp base.raw = true) :
    getParam (generateGetFeatureUrl base wfsVersion layerName format projCode extent).params
      "SERVICE" = some "WFS" ∧
    getParam (generateGetFeatureUrl base wfsVersion layerName format projCode extent).params
      "version" = some wfsVersion ∧
    getParam (generateGetFeatureUrl base wfsVersion layerName format projCode extent).params
      "request" = some "GetFeature" ∧
    getParam (generateGetFeatureUrl base wfsVersion layerName format projCode extent).params
      "srsName" = some projCode ∧
    getParam (generateGetFeatureUrl base wfsVersion layerName format projCode extent).params
      "bbox" = some (String.intercalate "," extent ++ "," ++ projCode) ∧
    getParam (generateGetFeatureUrl base wfsVersion layerName format projCode extent).params
      (if wfsVersion = "2.0.0" then "typenames" else "typename") = some layerName ∧
    (format = "geojson" →
      getParam (generateGetFeatureUrl base wfsVersion layerName format projCode extent).params
        "outputFormat" = some "application/json") ∧
    (format ≠ "geojson" → getParam base.params "outputFormat" = none →
      getParam (generateGetFeatureUrl base wfsVersion layerName format projCode extent).params
        "outputFormat" = none) ∧
    (wfsVersion ≠ "2.0.0" → getParam base.params "typenames" = none →
      getParam (generateGetFeatureUrl base wfsVersion layerName format projCode extent).params
        "typenames" = none) := by
  unfold generateGetFeatureUrl
  rw [hhttp]
  by_cases hv : wfsVersion = "2.0.0" <;>
    by_cases hf : format = "geojson" <;>
      simp only [hv, hf, if_true, if_false, ite_true, ite_false, reduceIte] <;>
        refine ⟨?_, ?_, ?_, ?_, ?_, ?_, ?_, ?_, ?_⟩ <;>
          simp_all [getParam_setParam_same, getParam_setParam_other]

/-- **C4** (amended): for every HTTP base URL, `generateGetFeatureUrl`
returns a URL carrying `SERVICE=WFS`, `version=<wfsVersion>`,
`request=GetFeature`, `srsName=<projCode>`,
`bbox=<minx,miny,maxx,maxy,projCode>`, `outputFormat=application/json`
exactly when the format is `geojson` (absent otherwise, unless already
present in the base URL), and the layer name under `typenames` exactly
when the WFS version is the exact string `2.0.0` (strict equality — not
for `2.0.2`), otherwise under `typename`. -/
theorem generateGetFeatureUrl_params (base : UrlModel)
    (wfsVersion layerName format projCode : String) (extent : List String)
    (hhttp : isHttp base.raw = true) :
    getParam (generateGetFeatureUrl base wfsVersion layerName format projCode extent).params
      "SERVICE" = some "WFS" ∧
    getParam (generateGetFeatureUrl base wfsVersion layerName format projCode extent).params
      "version" = some wfsVersion ∧
    getParam (generateGetFeatureUrl base wfsVersion layerName format projCode extent).params
      "request" = some "GetFeature" ∧
    getParam (generateGetFeatureUrl base wfsVersion layerName format projCode extent).params
      "srsName" = some projCode ∧
    getParam (generateGetFeatureUrl base wfsVersion layerName format projCode extent).params
      "bbox" = some (String.intercalate "," extent ++ "," ++ projCode) ∧
    getParam (generateGetFeatureUrl base wfsVersion layerName format projCode extent).params
      (if wfsVersion = "2.0.0" then "typenames" else "typename") = some layerName ∧
    (format = "geojson" →
      getParam (generateGetFeatureUrl base wfsVersion layerName format projCode extent).params
        "outputFormat" = some "application/json") ∧
    (format ≠ "geojson" → getParam base.params "outputFormat" = none →
      getParam (generateGetFeatureUrl base wfsVersion layerName format projCode extent).params
        "outputFormat" = none) ∧
    (wfsVersion ≠ "2.0.0" → getParam base.params "typenames" = none →
      getParam (generateGetFeatureUrl base wfsVersion layerName format projCode extent).params
        "typenames" = none) :=
  getFeatureUrl_params_lemma base wfsVersion layerName format projCode extent hhttp

/-- Witness for C4's amended statement: a concrete HTTP base URL with
version `2.0.2` and a non-geojson format puts the layer name under
`typename` and adds no `outputFormat`. -/
theorem generateGetFeatureUrl_params_witness :
    getParam (generateGetFeatureUrl ⟨"http://example.com/wfs", []⟩ "2.0.2"
      "topp:states" "gml" "EPSG:4326" ["0", "1", "2", "3"]).params
      (if ("2.0.2" : String) = "2.0.0" then "typenames" else "typename") =
        some "topp:states" ∧
    getParam (generateGetFeatureUrl ⟨"http://example.com/wfs", []⟩ "2.0.2"
      "topp:states" "gml" "EPSG:4326" ["0", "1", "2", "3"]).params
      "typenames" = none :=
  ⟨(generateGetFeatureUrl_params ⟨"http://example.com/wfs", []⟩ "2.0.2"
      "topp:states" "gml" "EPSG:4326" ["0", "1", "2", "3"] (by decide)).2.2.2.2.2.1,
   (generateGetFeatureUrl_params ⟨"http://example.com/wfs", []⟩ "2.0.2"
      "topp:states" "gml" "EPSG:4326" ["0", "1", "2", "3"] (by decide)).2.2.2.2.2.2.2.2
      (by decide) (by decide)⟩

/-- Counterexample for C4 as stated: the claim requires the layer name
under `typenames` for every version ≥ 2.0.0, e.g. `2.0.2`; but for the
concrete HTTP base URL below with version `2.0.2` the result carries no
`typenames` parameter at all — the name sits under `typename`. -/
theorem generateGetFeatureUrl_version_202_counterexample :
    getParam (generateGetFeatureUrl ⟨"http://example.com/wfs", []⟩ "2.0.2"
      "topp:states" "geojson" "EPSG:4326" ["0", "1", "2", "3"]).params
      "typenames" = none ∧
    getParam (generateGetFeatureUrl ⟨"http://example.com/wfs", []⟩ "2.0.2"
      "topp:states" "geojson" "EPSG:4326" ["0", "1", "2", "3"]).params
      "typename" = some "topp:states" := by
  constructor <;> decide

/-! ## C9: WFS version defaulting -/

/-- **C9**: a WFS layer spec that omits the `version` field uses WFS
version `1.1.0`, and the generated GetFeature URL then carries
`version=1.1.0` and the layer name under `typename` (and not under
`typenames`, provided the base URL itself carries none). -/
theorem wfs_default_version (base : UrlModel) (v : Option String)
    (layerName format projCode : String) (extent : List String)
    (hv : v = none) (hhttp : isHttp base.raw = true)
    (htn : getParam base.params "typenames" = none) :
    wfsEffectiveVersion v = "1.1.0" ∧
    getParam (generateGetFeatureUrl base (wfsEffectiveVersion v) layerName format
      projCode extent).params "version" = some "1.1.0" ∧
    getParam (generateGetFeatureUrl base (wfsEffectiveVersion v) layerName format
      projCode extent).params "typename" = some layerName ∧
    getParam (generateGetFeatureUrl base (wfsEffectiveVersion v) layerName format
      projCode extent).params "typenames" = none := by
  subst hv
  have hver : wfsEffectiveVersion none = "1.1.0" := rfl
  have h := getFeatureUrl_params_lemma base "1.1.0" layerName format projCode
    extent hhttp
  refine ⟨hver, ?_, ?_, ?_⟩
  · rw [hver]
    exact h.2.1
  · rw [hver]
    have := h.2.2.2.2.2.1
    simpa using this
  · rw [hver]
    exact h.2.2.2.2.2.2.2.2 (by decide) htn

/-- Witness for C9: a concrete WFS layer spec without a version field
against a concrete HTTP base URL. -/
theorem wfs_default_version_witness :
    wfsEffectiveVersion none = "1.1.0" ∧
    getParam (generateGetFeatureUrl ⟨"http://example.com/wfs", []⟩
      (wfsEffectiveVersion none) "topp:states" "geojson" "EPSG:4326"
      ["0", "1", "2", "3"]).params "version" = some "1.1.0" ∧
    getParam (generateGetFeatureUrl ⟨"http://example.com/wfs", []⟩
      (wfsEffectiveVersion none) "topp:states" "geojson" "EPSG:4326"
      ["0", "1", "2", "3"]).params "typename" = some "topp:states" :=
  ⟨(wfs_default_version ⟨"http://example.com/wfs", []⟩ none "topp:states"
      "geojson" "EPSG:4326" ["0", "1", "2", "3"] rfl (by decide) (by decide)).1,
   (wfs_default_version ⟨"http://example.com/wfs", []⟩ none "topp:states"
      "geojson" "EPSG:4326" ["0", "1", "2", "3"] rfl (by decide) (by decide)).2.1,
   (wfs_default_version ⟨"http://example.com/wfs", []⟩ none "topp:states"
      "geojson" "EPSG:4326" ["0", "1", "2", "3"] rfl (by decide) (by decide)).2.2.1⟩

/-! ## C5: unknown layer type -/

/-- **C5**: a print spec containing a layer whose type is none of XYZ,
WMS, WMTS, WFS yields no render task from `createLayer` (the source
switch has no default arm), and the spec-modelled dispatcher therefore
surfaces a configuration error for that layer before rendering begins. -/
theorem unknown_layer_type_error (layers : List LayerSpec) (spec : LayerSpec)
    (hmem : spec ∈ layers) (hunk : spec.type ∉ ["XYZ", "WMS", "WMTS", "WFS"]) :
    createLayer spec = none ∧
    spec.type ∈ (dispatchJob layers).configErrors := by
  have hnone : createLayer spec = none := by
    simp only [List.mem_cons, List.not_mem_nil, or_false, not_or] at hunk
    rw [createLayer.eq_def]
    split <;> simp_all
  refine ⟨hnone, ?_⟩
  have hfilter : spec ∈ layers.filter (fun l => (createLayer l).isNone) :=
    List.mem_filter.mpr ⟨hmem, by simp [hnone]⟩
  simp only [dispatchJob]
  exact List.mem_map_of_mem _ hfilter

/-- Witness for C5: a one-layer job with the unknown type `"FOO"`. -/
theorem unknown_layer_type_error_witness :
    createLayer ⟨"FOO", "http://example.com", "x", none, false, none, none,
      "EPSG:4326"⟩ = none ∧
    "FOO" ∈ (dispatchJob [⟨"FOO", "http://example.com", "x", none, false, none,
      none, "EPSG:4326"⟩]).configErrors :=
  unknown_layer_type_error _ _ (List.mem_singleton.mpr rfl) (by decide)

/-! ## C7: WMTS tile-grid defaults -/

/-- **C7**: a WMTS tileGrid supplying resolutions but no matrixIds gets
matrix ids `0, 1, ..., resolutions.length - 1` (so `[0,1,2,3,4]` for
five resolutions), and a missing extent defaults to the projection's
full extent. -/
theorem wmts_tilegrid_defaults (extentFromProjection : String → List ℚ)
    (projection : String) (tg : TileGridSpec) (hm : tg.matrixIds = none) :
    (wmtsEffectiveTileGrid extentFromProjection projection tg).matrixIds =
      List.range tg.resolutions.length ∧
    (tg.resolutions.length = 5 →
      (wmtsEffectiveTileGrid extentFromProjection projection tg).matrixIds =
        [0, 1, 2, 3, 4]) ∧
    (tg.extent = none →
      (wmtsEffectiveTileGrid extentFromProjection projection tg).extent =
        extentFromProjection projection) := by
  refine ⟨?_, ?_, ?_⟩
  · simp [wmtsEffectiveTileGrid, hm]
  · intro h5
    simp [wmtsEffectiveTileGrid, hm, h5]
    decide
  · intro he
    simp [wmtsEffectiveTileGrid, he]

/-- Witness for C7: five resolutions, no matrix ids, no extent. -/
theorem wmts_tilegrid_defaults_witness :
    (wmtsEffectiveTileGrid (fun _ => [0, 0, 1, 1]) "EPSG:3857"
      ⟨[1, 2, 4, 8, 16], none, none⟩).matrixIds = [0, 1, 2, 3, 4] ∧
    (wmtsEffectiveTileGrid (fun _ => [0, 0, 1, 1]) "EPSG:3857"
      ⟨[1, 2, 4, 8, 16], none, none⟩).extent = [0, 0, 1, 1] :=
  ⟨(wmts_tilegrid_defaults (fun _ => [0, 0, 1, 1]) "EPSG:3857"
      ⟨[1, 2, 4, 8, 16], none, none⟩ rfl).2.1 (by decide),
   (wmts_tilegrid_defaults (fun _ => [0, 0, 1, 1]) "EPSG:3857"
      ⟨[1, 2, 4, 8, 16], none, none⟩ rfl).2.2 rfl⟩

/-! ## C8: WFS opacity is not applied -/

/-- **C8**: the WFS task invokes `setFrameState` without an opacity
argument, so the installed layer state's opacity defaults to 1 whatever
opacity the spec carries, while the raster variants (XYZ, WMS, WMTS)
pass the spec's opacity through. -/
theorem wfs_opacity_ignored (root : FrameState) (spec : LayerSpec) (q : ℚ)
    (hq : spec.opacity = some q) :
    ((createLayerWFSFrame root spec).layerStatesArray.map LayerState.opacity
      = [1]) ∧
    ((createLayerXYZFrame root spec).layerStatesArray.map LayerState.opacity
      = [q]) ∧
    ((createLayerWMSFrame root spec).layerStatesArray.map LayerState.opacity
      = [q]) ∧
    ((createLayerWMTSFrame root spec).layerStatesArray.map LayerState.opacity
      = [q]) := by
  refine ⟨?_, ?_, ?_, ?_⟩
  · simp [createLayerWFSFrame, setFrameState]
  · simp [createLayerXYZFrame, createTiledLayerFrame, setFrameState, hq]
  · by_cases ht : spec.tiled <;>
      simp [createLayerWMSFrame, createTiledLayerFrame, setFrameState, hq, ht]
  · simp [createLayerWMTSFrame, createTiledLayerFrame, setFrameState, hq]

/-- Witness for C8: a WFS spec with opacity 1/2 still yields layer-state
opacity 1, while an XYZ task with the same spec uses 1/2. -/
theorem wfs_opacity_ignored_witness :
    ((createLayerWFSFrame ⟨[400, 300], []⟩
      ⟨"WFS", "http://example.com/wfs", "states", some (1/2), false, none, none,
        "EPSG:4326"⟩).layerStatesArray.map LayerState.opacity = [1]) ∧
    ((createLayerXYZFrame ⟨[400, 300], []⟩
      ⟨"WFS", "http://example.com/wfs", "states", some (1/2), false, none, none,
        "EPSG:4326"⟩).layerStatesArray.map LayerState.opacity = [1/2]) :=
  ⟨(wfs_opacity_ignored ⟨[400, 300], []⟩ _ (1/2) rfl).1,
   (wfs_opacity_ignored ⟨[400, 300], []⟩ _ (1/2) rfl).2.1⟩

/-! ## Tiled-stream lemmas -/

/-- Helper: once the failure handler has recorded the source URL, every
later event preserves it. -/
theorem runTiled_errorUrl_preserved (sourceUrl : String) :
    ∀ (events : List TileEvent) (init : TiledState),
      init.tileLoadErrorUrl = some sourceUrl →
      (runTiled sourceUrl init events).tileLoadErrorUrl = some sourceUrl := by
  intro events
  induction events with
  | nil => intro init h; exact h
  | cons e es ih =>
    intro init h
    cases e
    · exact ih _ (by simpa [tiledStep] using h)
    · exact ih _ (by simpa [tiledStep] using h)
    · exact ih _ (by simp [tiledStep])

/-- Helper: if any failure event occurred, the run's final state records
the source URL. -/
theorem runTiled_errorUrl (sourceUrl : String) :
    ∀ (events : List TileEvent) (init : TiledState),
      TileEvent.failure ∈ events →
      (runTiled sourceUrl init events).tileLoadErrorUrl = some sourceUrl := by
  intro events
  induction events with
  | nil => intro init h; simp at h
  | cons e es ih =>
    intro init hmem
    rcases List.mem_cons.mp hmem with he | he
    · cases he
      exact runTiled_errorUrl_preserved sourceUrl es _ rfl
    · exact ih _ he

/-- Helper: if after a `loadMoreTiles(12, 4)` pass nothing is loading,
the queue must be empty — otherwise the pass would have started tiles. -/
theorem loadMoreTiles_drained (q : TileQueue)
    (h : (loadMoreTiles q 12 4).loading = 0) :
    (loadMoreTiles q 12 4).queued = 0 := by
  simp only [loadMoreTiles] at h ⊢
  omega

/-- Helper: with an empty queue and nothing loading, the map stage emits
progress exactly 1, the rendered canvas, and the recorded error URL. -/
theorem tiledEmit_drained (t : ℕ) (s : TiledState) (hq : s.queue.queued = 0)
    (hl : s.queue.loading = 0) : tiledEmit t s = (1, true, s.tileLoadErrorUrl) := by
  simp [tiledEmit, hq, hl]

/-! ## C3: tiled progress values -/

/-- **C3**: every emitted tuple of the tiled stream carries progress
`1 - queued_now / queued_initial`, except that when that quotient is
exactly 1 while tiles are still actively loading the emitted value is
the quotient minus 0.001; the surface slot is null whenever the emitted
progress is not 1 (and is the canvas exactly at progress 1). -/
theorem tiled_progress_emission (t q l : ℕ) (err : Option String) (ht : 0 < t) :
    (q = 0 ∧ 0 < l →
      tiledEmit t ⟨⟨q, l⟩, err⟩ = (1 - (q : ℚ) / t - 0.001, false, err)) ∧
    (q = 0 ∧ l = 0 → tiledEmit t ⟨⟨q, l⟩, err⟩ = (1, true, err)) ∧
    (q ≠ 0 → tiledEmit t ⟨⟨q, l⟩, err⟩ = (1 - (q : ℚ) / t, false, err)) := by
  refine ⟨?_, ?_, ?_⟩
  · rintro ⟨rfl, hl⟩
    simp [tiledEmit, hl]
    norm_num
  · rintro ⟨rfl, rfl⟩
    simp [tiledEmit]
  · intro hq
    have htq : (q : ℚ) / t ≠ 0 := by
      have h1 : (q : ℚ) ≠ 0 := Nat.cast_ne_zero.mpr hq
      have h2 : (t : ℚ) ≠ 0 := Nat.cast_ne_zero.mpr (by omega)
      exact div_ne_zero h1 h2
    have hne : 1 - (q : ℚ) / t ≠ 1 := by
      intro hh
      exact htq (by linarith)
    simp [tiledEmit, hne]

/-- Witness for C3: four initial tiles, two still queued, one loading:
the emission is `(1 - 2/4, null, no error)`. -/
theorem tiled_progress_emission_witness :
    tiledEmit 4 ⟨⟨2, 1⟩, none⟩ = (1 - (2 : ℚ) / 4, false, none) :=
  (tiled_progress_emission 4 2 1 none (by decide)).2.2 (by decide)

/-! ## C2: load failures never kill a task -/

/-- **C2**: across all layer variants an individual load failure never
terminates the task without a result.  For single-image WMS and for WFS
(xhr error, or any non-200 HTTP status such as 404) the final emission
carries progress exactly 1, a present surface, and the failing layer's
URL.  For the tiled stream, whenever a failure was recorded and a tick
makes the `takeWhile` predicate falsy (nothing loading any more), that
inclusive final emission is `(1, canvas, sourceUrl)`. -/
theorem load_failure_still_completes :
    (∀ url, (createLayerWMSEmissions (.failed url)).getLast? =
      some (1, true, some url)) ∧
    (∀ url status, status ≠ 200 →
      (createLayerWFSEmissions url (.load status)).getLast? =
        some (1, true, some url)) ∧
    (∀ url, (createLayerWFSEmissions url .networkError).getLast? =
      some (1, true, some url)) ∧
    (∀ (url : String) (t : ℕ) (events : List TileEvent), 0 < t →
      TileEvent.failure ∈ events →
      tiledContinue (tiledStep url (runTiled url (tiledInit t) events) .tick)
        = false →
      tiledEmit t (tiledStep url (runTiled url (tiledInit t) events) .tick) =
        (1, true, some url)) := by
  refine ⟨fun url => rfl, ?_, fun url => rfl, ?_⟩
  · intro url status h
    simp [createLayerWFSEmissions, h]
  · intro url t events ht hmem hstop
    have herr : (runTiled url (tiledInit t) events).tileLoadErrorUrl = some url :=
      runTiled_errorUrl url events _ hmem
    have hload :
        (tiledStep url (runTiled url (tiledInit t) events) .tick).queue.loading
          = 0 := by
      simpa [tiledContinue] using hstop
    have hq :
        (tiledStep url (runTiled url (tiledInit t) events) .tick).queue.queued
          = 0 :=
      loadMoreTiles_drained _ hload
    rw [tiledEmit_drained t _ hq hload]
    simpa [tiledStep] using congrArg (fun u => ((1 : ℚ), true, u)) herr

/-- Witness for C2: a failed WMS image at its source URL, a WFS fetch
answered 404, and a two-tile tiled run in which one tile fails; each
ends with progress 1, a surface, and the layer's URL. -/
theorem load_failure_still_completes_witness :
    (createLayerWMSEmissions (.failed "http://wms.example.com")).getLast? =
      some (1, true, some "http://wms.example.com") ∧
    (createLayerWFSEmissions "http://wfs.example.com" (.load 404)).getLast? =
      some (1, true, some "http://wfs.example.com") ∧
    tiledEmit 2 (tiledStep "http://tiles.example.com"
      (runTiled "http://tiles.example.com" (tiledInit 2)
        [.tick, .failure, .success]) .tick) =
      (1, true, some "http://tiles.example.com") :=
  ⟨load_failure_still_completes.1 _,
   load_failure_still_completes.2.1 _ 404 (by decide),
   load_failure_still_completes.2.2.2 _ 2 [.tick, .failure, .success]
     (by decide) (by decide) (by decide)⟩

/-! ## C10: worker Image polyfill events -/

/-- **C10**: the worker-side `Image` polyfill only ever invokes
listeners registered for the `load` event — `addEventListener` ignores
every other event name — and a failed fetch in the `src` setter never
resolves the internal load promise, so no event fires and the image load
never settles. -/
theorem worker_image_polyfill (listeners : List (String × ℕ)) (name : String)
    (cb : ℕ) (hname : name ≠ "load") :
    imageAddEventListener listeners name cb = listeners ∧
    imageLoadSettles .failure = false ∧
    imageInvokedCallbacks listeners .failure = [] ∧
    ∀ (o : WorkerFetchOutcome) (c : ℕ), c ∈ imageInvokedCallbacks listeners o →
      ("load", c) ∈ listeners := by
  refine ⟨?_, rfl, rfl, ?_⟩
  · simp [imageAddEventListener, hname]
  · intro o c hc
    cases o
    · simp only [imageInvokedCallbacks, imageLoadSettles, if_true,
        List.mem_map, List.mem_filter] at hc
      obtain ⟨⟨a, b⟩, ⟨hmem2, hkey⟩, hbc⟩ := hc
      simp only [beq_iff_eq] at hkey
      subst hkey
      subst hbc
      exact hmem2
    · simp [imageInvokedCallbacks, imageLoadSettles] at hc

/-- Witness for C10: registering an `error` listener is a no-op and a
failed fetch invokes nothing. -/
theorem worker_image_polyfill_witness :
    imageAddEventListener [("load", 1)] "error" 2 = [("load", 1)] ∧
    imageInvokedCallbacks [("load", 1)] .failure = [] :=
  ⟨(worker_image_polyfill [("load", 1)] "error" 2 (by decide)).1,
   (worker_image_polyfill [("load", 1)] "error" 2 (by decide)).2.2.1⟩

end Inkmap
